import Mathlib

/-!
# Verification of the GD Adverse Perinatal Outcome predictor (`src/web.py`)

A shallow embedding of the decision pipeline of the Streamlit app
`web.py`: model loading, input collection, prediction, risk
classification, and SHAP explanation, together with proofs of the
spec's claims about it.

Numeric values flowing through the pipeline (probabilities, clinical
measurements, tree outputs) are embedded as rationals `ℚ`; the Python
source uses IEEE doubles, but every comparison and arithmetic
operation the claims mention is exact at the inputs considered.
-/

namespace GDPredictor

/-- The three risk tiers of the spec's `PredictionResult`
(`enum{Low, Moderate, High}`), corresponding in the source to the
`status-low` / `status-mod` / `status-high` branches. -/
inductive Tier where
  | Low
  | Moderate
  | High
  deriving DecidableEq, Repr

/-- Numeric rank of a tier under the ordering Low < Moderate < High. -/
def Tier.rank : Tier → ℕ
  | .Low => 0
  | .Moderate => 1
  | .High => 2

/-- Guidance text of the `risk_prob > 0.6` branch (web.py line 131). -/
def adviceHigh : String :=
  "Intensive perinatal monitoring and glycemic control adjustment recommended."

/-- Guidance text of the `risk_prob < 0.25` branch (web.py line 134). -/
def adviceLow : String :=
  "Standard gestational diabetes management and routine follow-up."

/-- Guidance text of the `else` branch (web.py line 137). -/
def adviceModerate : String :=
  "Increased surveillance of fetal growth and maternal metabolic markers."

/-- The classification branch of web.py lines 129-137: returns the
triple `(status_class, status_text, advice)` assigned by the
`if risk_prob > 0.6 / elif risk_prob < 0.25 / else` cascade. -/
def classifyRisk (risk_prob : ℚ) : String × String × String :=
  if risk_prob > 0.6 then
    ("status-high", "High Risk Profile", adviceHigh)
  else if risk_prob < 0.25 then
    ("status-low", "Low Risk Profile", adviceLow)
  else
    ("status-mod", "Moderate Risk Profile", adviceModerate)

/-- The risk tier determined by the same threshold cascade as
`classifyRisk` (web.py lines 129-137), phrased as the spec's
`Tier` enumeration. -/
def tierOf (risk_prob : ℚ) : Tier :=
  if risk_prob > 0.6 then .High
  else if risk_prob < 0.25 then .Low
  else .Moderate

/-- The secondary relative-risk display label of web.py line 153:
`"Elevated" if risk_prob > 0.4 else "Stable"`. -/
def relativeRiskLabel (risk_prob : ℚ) : String :=
  if risk_prob > 0.4 then "Elevated" else "Stable"

/-- The tier-to-output association: given a tier, the
`(status_class, status_text, advice)` triple the source emits for it. -/
def tierOutput : Tier → String × String × String
  | .High => ("status-high", "High Risk Profile", adviceHigh)
  | .Low => ("status-low", "Low Risk Profile", adviceLow)
  | .Moderate => ("status-mod", "Moderate Risk Profile", adviceModerate)

theorem classifyRisk_eq_tierOutput (p : ℚ) :
    classifyRisk p = tierOutput (tierOf p) := by
  unfold classifyRisk tierOf
  by_cases h1 : p > 0.6 <;> by_cases h2 : p < 0.25 <;>
    simp [h1, h2, tierOutput]

/-- C1: the classifier maps each probability to exactly one of the
three tiers by the fixed ordered policy: `p > 0.60` yields High with
the intensive-monitoring guidance, `p < 0.25` yields Low with the
standard-management guidance, and otherwise Moderate with the
increased-surveillance guidance; the tier preimages are a total,
non-overlapping partition of `[0,1]`, and the boundary values
`p = 0.60` and `p = 0.25` both land in the Moderate tier. -/
theorem classify_partition_and_boundaries :
    (∀ p : ℚ,
      ((tierOf p = .High ↔ p > 0.6) ∧
       (tierOf p = .Low ↔ p < 0.25) ∧
       (tierOf p = .Moderate ↔ (0.25 ≤ p ∧ p ≤ 0.6))) ∧
      classifyRisk p = tierOutput (tierOf p)) ∧
    (tierOutput .High).2.2 = adviceHigh ∧
    (tierOutput .Low).2.2 = adviceLow ∧
    (tierOutput .Moderate).2.2 = adviceModerate ∧
    tierOf 0.6 = .Moderate ∧ tierOf 0.25 = .Moderate := by
  refine ⟨fun p => ⟨⟨?_, ?_, ?_⟩, classifyRisk_eq_tierOutput p⟩, rfl, rfl, rfl,
    by unfold tierOf; norm_num, by unfold tierOf; norm_num⟩
  · unfold tierOf
    by_cases h1 : p > 0.6 <;> by_cases h2 : p < 0.25 <;>
      simp [h1, h2] <;> linarith
  · unfold tierOf
    by_cases h1 : p > 0.6 <;> by_cases h2 : p < 0.25 <;>
      simp [h1, h2] <;> linarith
  · unfold tierOf
    by_cases h1 : p > 0.6 <;> by_cases h2 : p < 0.25 <;>
      simp [h1, h2] <;> constructor <;> intros <;> linarith

/-- C10: the tier assignment is monotone in the probability under the
ordering Low < Moderate < High: raising the probability never lowers
the tier. -/
theorem tierOf_monotone (p q : ℚ) (h : p ≤ q) :
    (tierOf p).rank ≤ (tierOf q).rank := by
  unfold tierOf
  by_cases h1 : p > 0.6 <;> by_cases h2 : p < 0.25 <;>
    by_cases h3 : q > 0.6 <;> by_cases h4 : q < 0.25 <;>
    simp [h1, h2, h3, h4, Tier.rank] <;> linarith

/-- Witness for C10 at `p = 0.1 ≤ 0.7 = q`. -/
theorem tierOf_monotone_witness :
    (tierOf 0.1).rank ≤ (tierOf 0.7).rank :=
  tierOf_monotone 0.1 0.7 (by norm_num)

/-- C8: the relative-risk display label is determined solely by the
secondary `0.40` threshold (`"Elevated"` above it, `"Stable"`
otherwise), and this label is independent of the Low/Moderate/High
tier and its guidance: there are probabilities with the same label but
different tiers and guidance, and probabilities with the same tier and
guidance but different labels. -/
theorem relativeRisk_independent :
    (∀ p : ℚ,
      (relativeRiskLabel p = "Elevated" ↔ p > 0.4) ∧
      (relativeRiskLabel p = "Stable" ↔ ¬p > 0.4)) ∧
    (relativeRiskLabel 0.45 = relativeRiskLabel 0.65 ∧
      tierOf 0.45 ≠ tierOf 0.65 ∧
      (classifyRisk 0.45).2.2 ≠ (classifyRisk 0.65).2.2) ∧
    (tierOf 0.3 = tierOf 0.5 ∧
      (classifyRisk 0.3).2.2 = (classifyRisk 0.5).2.2 ∧
      relativeRiskLabel 0.3 ≠ relativeRiskLabel 0.5) := by
  refine ⟨fun p => ⟨?_, ?_⟩,
    ⟨by unfold relativeRiskLabel; norm_num,
     by unfold tierOf; norm_num; decide,
     by unfold classifyRisk; norm_num [adviceModerate, adviceHigh]; decide⟩,
    ⟨by unfold tierOf; norm_num,
     by unfold classifyRisk; norm_num,
     by unfold relativeRiskLabel; norm_num; decide⟩⟩
  · unfold relativeRiskLabel
    by_cases h : p > 0.4 <;> simp [h]
  · unfold relativeRiskLabel
    by_cases h : p > 0.4 <;> simp [h]

/-! ## Input collection and the request pipeline -/

/-- The canonical feature names of the `input_data` dictionary
(web.py lines 111-117), in order. -/
def canonicalNames : List String := ["BMI", "FPG", "TG", "A1/B", "D_dimer"]

/-- The spec's `ClinicalRecord`: the five named numeric clinical
fields of the input form (web.py lines 97-101). -/
structure ClinicalRecord where
  bmi : ℚ
  fpg : ℚ
  tg : ℚ
  a1_b : ℚ
  d_dimer : ℚ
  deriving DecidableEq

/-- The input collector of web.py lines 96-104: each
`st.number_input` widget enforces its `[min, max]` bound at the form
level, so a submission produces a record exactly when every field is
within its declared bound; an out-of-range record is never
constructed. -/
def collect (bmi fpg tg a1_b d_dimer : ℚ) : Option ClinicalRecord :=
  if 15.0 ≤ bmi ∧ bmi ≤ 50.0 ∧
     2.0 ≤ fpg ∧ fpg ≤ 20.0 ∧
     0.1 ≤ tg ∧ tg ≤ 15.0 ∧
     0.1 ≤ a1_b ∧ a1_b ≤ 5.0 ∧
     0.0 ≤ d_dimer ∧ d_dimer ≤ 10.0 then
    some ⟨bmi, fpg, tg, a1_b, d_dimer⟩
  else
    none

/-- The loaded model artifact. `predict_proba` and `shap_values` are
the two third-party calls the pipeline makes (web.py lines 122 and
162-163); either may raise, embedded as `Except`. The two `proba_*`
fields record the XGBoost library contract that a successful
`predict_proba` call on a binary classifier returns a nonnegative
two-class vector summing to 1; `feature_names` are the artifact's
declared expected feature names. -/
structure Model where
  feature_names : List String
  predict_proba : ClinicalRecord → Except String (ℚ × ℚ)
  shap_values : ClinicalRecord → Except String (Fin 5 → ℚ)
  expected_value : ℚ
  proba_nonneg : ∀ r p, predict_proba r = .ok p → 0 ≤ p.1 ∧ 0 ≤ p.2
  proba_sum_one : ∀ r p, predict_proba r = .ok p → p.1 + p.2 = 1

/-- The state of the model file `gd_outcome_model.pkl`: missing
(`os.path.exists` false), present but failing to unpickle, or
deserializing to a model. -/
inductive ModelFile where
  | absent
  | corrupt
  | valid (m : Model)

/-- The spec's startup-error taxonomy: `ModelNotFoundError` /
`ModelLoadError`. In the source each is realized as a distinct
`st.error` message followed by `st.stop()` (web.py lines 77-85). -/
inductive LoadError where
  | modelNotFound
  | modelLoadError
  deriving DecidableEq, Repr

/-- The loader `load_model` (web.py lines 73-87): if the fixed path does not
exist, report `modelNotFound` and stop; if unpickling raises, report
`modelLoadError` and stop; otherwise return the deserialized model
unchanged — no inspection of the artifact's feature names occurs. -/
def load_model : ModelFile → Except LoadError Model
  | .absent => .error .modelNotFound
  | .corrupt => .error .modelLoadError
  | .valid m => .ok m

/-- A render event emitted to the page, in emission order. -/
inductive Event where
  /-- The result box of web.py lines 139-147: status class, status
  text, the displayed probability and the guidance text. -/
  | resultBox (status_class status_text : String) (risk_prob : ℚ) (advice : String)
  /-- The "Risk Score" metric (web.py line 152). -/
  | riskScoreMetric (risk_prob : ℚ)
  /-- The "Relative Risk" metric (web.py line 153). -/
  | relativeRiskMetric (label : String)
  /-- The "Feature Input Log" expander table (web.py lines 155-156). -/
  | inputLog (record : ClinicalRecord)
  /-- A markdown section header. -/
  | sectionHeader (title : String)
  /-- The SHAP force plot (web.py lines 165-170): baseline, raw
  attribution values, the record, and the display link parameter. -/
  | shapPlot (expected_value : ℚ) (values : Fin 5 → ℚ)
      (record : ClinicalRecord) (link : String)
  /-- An `st.error` notice. -/
  | errorNotice (msg : String)
  /-- An `st.info` notice. -/
  | infoNotice (msg : String)

/-- Whether an event is the SHAP force plot. -/
def Event.isShapPlot : Event → Bool
  | .shapPlot _ _ _ _ => true
  | _ => false

/-- The `st.info` hint shown beneath a per-request error
(web.py line 174). -/
def featureHint : String :=
  "Ensure the model features (BMI, FPG, TG, A1/B, D-dimer) match the training dataset column names."

/-- The extraction `risk_prob = float(prediction_probs[1])` (web.py lines 122-123):
the probability mass at index 1 of the two-class output, when
prediction succeeds. -/
def riskProbOf (model : Model) (record : ClinicalRecord) : Option ℚ :=
  match model.predict_proba record with
  | .ok probs => some probs.2
  | .error _ => none

/-- The submission handler of web.py lines 109-174. Streamlit renders
eagerly, so every widget emitted before an exception stays on the
page; the single `try/except` around lines 120-171 therefore only
cuts off the remaining emissions and appends the error notices of
lines 173-174. If `predict_proba` raises, nothing but the error
notices is shown; if it succeeds, the result box, metrics, input log
and section header are shown, and then either the SHAP plot (with the
raw attribution values and the `link="logit"` display parameter) or,
if the explanation step raises, the error notices. -/
def handleSubmission (model : Model) (record : ClinicalRecord) : List Event :=
  match model.predict_proba record with
  | .error e => [.errorNotice ("Prediction Error: " ++ e), .infoNotice featureHint]
  | .ok probs =>
    let risk_prob := probs.2
    let cls := classifyRisk risk_prob
    let shown : List Event :=
      [.resultBox cls.1 cls.2.1 risk_prob cls.2.2,
       .riskScoreMetric risk_prob,
       .relativeRiskMetric (relativeRiskLabel risk_prob),
       .inputLog record,
       .sectionHeader "Patient-Specific Contribution (SHAP Interpretation)"]
    match model.shap_values record with
    | .error e => shown ++ [.errorNotice ("Prediction Error: " ++ e), .infoNotice featureHint]
    | .ok sv => shown ++ [.shapPlot model.expected_value sv record "logit"]

/-- The outcome of one script run: either halted during model loading
(`st.stop`, before any form or submission logic executes), or a served
page of events. -/
inductive AppOutcome where
  | halted (e : LoadError)
  | served (events : List Event)

/-- The prompt shown when no submission was made (web.py line 177). -/
def promptMsg : String :=
  "Please provide the patient's clinical measurements in the sidebar to generate a risk assessment."

/-- One run of the script (web.py top to bottom): load the model —
halting on either load failure — then, if the form was submitted with
in-range values, handle the submission, else show the prompt. -/
def runApp (file : ModelFile) (submission : Option (ℚ × ℚ × ℚ × ℚ × ℚ)) :
    AppOutcome :=
  match load_model file with
  | .error e => .halted e
  | .ok model =>
    match submission with
    | none => .served [.infoNotice promptMsg]
    | some (b, f, t, a, d) =>
      match collect b f t a d with
      | none => .served [.infoNotice promptMsg]
      | some record => .served (handleSubmission model record)

/-- C5: a missing model file halts the run with `modelNotFound`, a
failing deserialization halts it with `modelLoadError`, and in either
case the run is `halted` — no request is served and no null model is
used — regardless of any pending submission. -/
theorem load_failure_halts_startup :
    ∀ submission : Option (ℚ × ℚ × ℚ × ℚ × ℚ),
      runApp .absent submission = .halted .modelNotFound ∧
      runApp .corrupt submission = .halted .modelLoadError :=
  fun _ => ⟨rfl, rfl⟩

/-- C7: every `ClinicalRecord` the collector constructs has all five
fields within their declared bounds: BMI in `[15, 50]`, fasting
plasma glucose in `[2, 20]`, triglycerides in `[0.1, 15]`, A1/B ratio
in `[0.1, 5]`, D-dimer in `[0, 10]`. -/
theorem collect_in_bounds (bmi fpg tg a1_b d_dimer : ℚ) (rec : ClinicalRecord)
    (h : collect bmi fpg tg a1_b d_dimer = some rec) :
    (15.0 ≤ rec.bmi ∧ rec.bmi ≤ 50.0) ∧
    (2.0 ≤ rec.fpg ∧ rec.fpg ≤ 20.0) ∧
    (0.1 ≤ rec.tg ∧ rec.tg ≤ 15.0) ∧
    (0.1 ≤ rec.a1_b ∧ rec.a1_b ≤ 5.0) ∧
    (0.0 ≤ rec.d_dimer ∧ rec.d_dimer ≤ 10.0) := by
  unfold collect at h
  split at h
  · cases h
    simp_all
  · exact absurd h (by simp)

/-- Witness for C7 at the form's declared default values. -/
theorem collect_in_bounds_witness :
    (15.0 ≤ (24.5 : ℚ) ∧ (24.5 : ℚ) ≤ 50.0) ∧
    (2.0 ≤ (5.1 : ℚ) ∧ (5.1 : ℚ) ≤ 20.0) ∧
    (0.1 ≤ (1.7 : ℚ) ∧ (1.7 : ℚ) ≤ 15.0) ∧
    (0.1 ≤ (1.2 : ℚ) ∧ (1.2 : ℚ) ≤ 5.0) ∧
    (0.0 ≤ (0.5 : ℚ) ∧ (0.5 : ℚ) ≤ 10.0) := by
  have h : collect 24.5 5.1 1.7 1.2 0.5 = some ⟨24.5, 5.1, 1.7, 1.2, 0.5⟩ := by
    unfold collect
    norm_num
  exact collect_in_bounds 24.5 5.1 1.7 1.2 0.5 ⟨24.5, 5.1, 1.7, 1.2, 0.5⟩ h

/-- The form's declared default values as a record
(web.py lines 97-101). -/
def defaultRecord : ClinicalRecord := ⟨24.5, 5.1, 1.7, 1.2, 0.5⟩

/-- A concrete test-fixture artifact: prediction succeeds with the
two-class vector `(0.45, 0.55)`; the explanation step raises. -/
def fixtureNoShap : Model where
  feature_names := canonicalNames
  predict_proba := fun _ => .ok (0.45, 0.55)
  shap_values := fun _ => .error "Model type not supported by TreeExplainer"
  expected_value := 0
  proba_nonneg := by
    intro r p h
    cases h
    norm_num
  proba_sum_one := by
    intro r p h
    cases h
    norm_num

/-- A deserializable artifact whose declared expected feature names do
not match the canonical five names of `input_data`; its inference
calls fail with a feature-name mismatch. -/
def mismatchedModel : Model where
  feature_names := ["bmi", "glucose"]
  predict_proba := fun _ => .error "feature_names mismatch"
  shap_values := fun _ => .error "feature_names mismatch"
  expected_value := 0
  proba_nonneg := by
    intro r p h
    exact absurd h (by simp)
  proba_sum_one := by
    intro r p h
    exact absurd h (by simp)

/-- C2: when prediction succeeds and the explanation step fails, the
page still contains the full prediction output (the result box with
the probability, tier text and guidance), an error notice is shown,
and no attribution plot appears — explanation failure never
suppresses the already-computed prediction output. -/
theorem explanation_failure_nonblocking (model : Model) (record : ClinicalRecord)
    (probs : ℚ × ℚ) (e : String)
    (hp : model.predict_proba record = .ok probs)
    (hs : model.shap_values record = .error e) :
    Event.resultBox (classifyRisk probs.2).1 (classifyRisk probs.2).2.1 probs.2
      (classifyRisk probs.2).2.2 ∈ handleSubmission model record ∧
    Event.errorNotice ("Prediction Error: " ++ e) ∈ handleSubmission model record ∧
    ∀ ev ∈ handleSubmission model record, ev.isShapPlot = false := by
  unfold handleSubmission
  rw [hp, hs]
  refine ⟨by simp, by simp, ?_⟩
  intro ev hev
  simp at hev
  rcases hev with h | h | h | h | h | h | h <;> subst h <;> rfl

/-- Witness for C2: the fixture whose explanation step raises still
shows the result box and an error notice, and no plot. -/
theorem explanation_failure_nonblocking_witness :
    Event.resultBox (classifyRisk (((0.45 : ℚ), (0.55 : ℚ))).2).1
      (classifyRisk (((0.45 : ℚ), (0.55 : ℚ))).2).2.1 (((0.45 : ℚ), (0.55 : ℚ))).2
      (classifyRisk (((0.45 : ℚ), (0.55 : ℚ))).2).2.2
      ∈ handleSubmission fixtureNoShap defaultRecord ∧
    Event.errorNotice ("Prediction Error: " ++ "Model type not supported by TreeExplainer")
      ∈ handleSubmission fixtureNoShap defaultRecord ∧
    ∀ ev ∈ handleSubmission fixtureNoShap defaultRecord, ev.isShapPlot = false :=
  explanation_failure_nonblocking fixtureNoShap defaultRecord (0.45, 0.55)
    "Model type not supported by TreeExplainer" rfl rfl

/-- C3 counterexample: loading performs no feature-name validation —
an artifact whose declared feature names differ from the canonical
`input_data` names is still loaded successfully, so the claimed
fail-fast at load time does not happen. -/
theorem load_ignores_feature_names :
    load_model (.valid mismatchedModel) = .ok mismatchedModel ∧
    mismatchedModel.feature_names ≠ canonicalNames :=
  ⟨rfl, by decide⟩

/-- C3 amended: `load_model` returns any successfully deserialized
artifact unchanged, without comparing the canonical field names to the
artifact's declared feature names; a feature-name mismatch is
discovered only at per-request prediction time, where it is caught and
rendered as the per-request error notices (including the hint naming
the expected features) rather than failing at load. -/
theorem mismatch_discovered_at_request (m : Model) (record : ClinicalRecord)
    (e : String) (hp : m.predict_proba record = .error e) :
    load_model (.valid m) = .ok m ∧
    handleSubmission m record =
      [.errorNotice ("Prediction Error: " ++ e), .infoNotice featureHint] := by
  refine ⟨rfl, ?_⟩
  unfold handleSubmission
  rw [hp]

/-- Witness for the amended C3 at the mismatched fixture. -/
theorem mismatch_discovered_at_request_witness :
    load_model (.valid mismatchedModel) = .ok mismatchedModel ∧
    handleSubmission mismatchedModel defaultRecord =
      [.errorNotice ("Prediction Error: " ++ "feature_names mismatch"),
       .infoNotice featureHint] :=
  mismatch_discovered_at_request mismatchedModel defaultRecord
    "feature_names mismatch" rfl

/-- C6: on every successful prediction the pipeline's risk probability
is the probability mass at index 1 of the two-class output, and that
value lies in `[0, 1]`. -/
theorem risk_prob_index_one_in_unit (model : Model) (record : ClinicalRecord)
    (probs : ℚ × ℚ) (hp : model.predict_proba record = .ok probs) :
    riskProbOf model record = some probs.2 ∧ 0 ≤ probs.2 ∧ probs.2 ≤ 1 := by
  have h1 := model.proba_nonneg record probs hp
  have h2 := model.proba_sum_one record probs hp
  refine ⟨?_, h1.2, by linarith [h1.1]⟩
  unfold riskProbOf
  rw [hp]

/-- Witness for C6 at the fixture model and default record. -/
theorem risk_prob_index_one_in_unit_witness :
    riskProbOf fixtureNoShap defaultRecord = some 0.55 ∧
    0 ≤ (0.55 : ℚ) ∧ (0.55 : ℚ) ≤ 1 :=
  risk_prob_index_one_in_unit fixtureNoShap defaultRecord (0.45, 0.55) rfl

/-! ## The tree ensemble and SHAP attribution

The loaded artifact is an XGBoost tree ensemble; `shap.TreeExplainer`
(web.py lines 162-163) computes, for the single input row, the exact
Shapley attribution of the ensemble's raw margin output with respect
to the path-dependent expectation (the library's defaults:
`feature_perturbation="tree_path_dependent"`, `model_output="raw"`,
which for an XGBoost binary classifier is the log-odds margin). The
`link="logit"` argument of web.py line 169 is a display parameter of
`force_plot` only; the values handed to it are the raw ones. -/

/-- A regression tree of the ensemble over the five clinical
features. A leaf carries a raw margin (log-odds) value; an internal
node splits on `feature` at `threshold`, taking the left branch when
the record's feature value is `< threshold`; `coverL` / `coverR` are
the training cover weights of the two subtrees, used by the
path-dependent expectation. -/
inductive Tree where
  | leaf (value : ℚ)
  | node (feature : Fin 5) (threshold : ℚ) (coverL coverR : ℚ) (left right : Tree)

/-- The raw margin output of one tree at a record. -/
def Tree.eval (x : Fin 5 → ℚ) : Tree → ℚ
  | .leaf v => v
  | .node f t _ _ l r => if x f < t then l.eval x else r.eval x

/-- The path-dependent conditional expectation of a tree, given that
the features in `S` take their values from the record `x`: at a split
on a feature in `S` the record's branch is followed; at any other
split the two branches are averaged by their cover weights. -/
def Tree.condExp (x : Fin 5 → ℚ) (S : Finset (Fin 5)) : Tree → ℚ
  | .leaf v => v
  | .node f t cl cr l r =>
    if f ∈ S then
      if x f < t then l.condExp x S else r.condExp x S
    else
      (cl * l.condExp x S + cr * r.condExp x S) / (cl + cr)

theorem Tree.condExp_univ (x : Fin 5 → ℚ) (t : Tree) :
    t.condExp x Finset.univ = t.eval x := by
  induction t with
  | leaf v => rfl
  | node f th cl cr l r ihl ihr => simp [condExp, eval, ihl, ihr]

theorem Tree.condExp_empty (x y : Fin 5 → ℚ) (t : Tree) :
    t.condExp x ∅ = t.condExp y ∅ := by
  induction t with
  | leaf v => rfl
  | node f th cl cr l r ihl ihr => simp [condExp, ihl, ihr]

/-- The features placed strictly before `i` in the ordering
`σ 0, σ 1, …` of a permutation `σ`. -/
def before {n : ℕ} (σ : Equiv.Perm (Fin n)) (i : Fin n) : Finset (Fin n) :=
  (Finset.univ.filter fun j : Fin n => (j : ℕ) < ((σ.symm i : Fin n) : ℕ)).image σ

/-- The image under `σ` of the first `k` positions. -/
def prefixImage {n : ℕ} (σ : Equiv.Perm (Fin n)) (k : ℕ) : Finset (Fin n) :=
  (Finset.univ.filter fun j : Fin n => (j : ℕ) < k).image σ

/-- The Shapley value of player `i` in the cooperative game `v`: the
average over all orderings of `i`'s marginal contribution. -/
def shapley {n : ℕ} (v : Finset (Fin n) → ℚ) (i : Fin n) : ℚ :=
  (∑ σ : Equiv.Perm (Fin n), (v (insert i (before σ i)) - v (before σ i))) /
    (Nat.factorial n)

theorem before_eq_prefixImage {n : ℕ} (σ : Equiv.Perm (Fin n)) (i : Fin n) :
    before σ i = prefixImage σ ((σ.symm i : Fin n) : ℕ) := rfl

theorem insert_before {n : ℕ} (σ : Equiv.Perm (Fin n)) (i : Fin n) :
    insert i (before σ i) = prefixImage σ (((σ.symm i : Fin n) : ℕ) + 1) := by
  have key : ∀ k : Fin n,
      insert (σ k) ((Finset.univ.filter fun j : Fin n => (j : ℕ) < (k : ℕ)).image σ) =
        (Finset.univ.filter fun j : Fin n => (j : ℕ) < (k : ℕ) + 1).image σ := by
    intro k
    rw [← Finset.image_insert]
    congr 1
    ext j
    simp only [Finset.mem_insert, Finset.mem_filter, Finset.mem_univ, true_and,
      Fin.ext_iff]
    omega
  have h := key (σ.symm i)
  rw [σ.apply_symm_apply] at h
  exact h

theorem prefixImage_top {n : ℕ} (σ : Equiv.Perm (Fin n)) :
    prefixImage σ n = Finset.univ := by
  unfold prefixImage
  have h : (Finset.univ.filter fun j : Fin n => (j : ℕ) < n) = Finset.univ := by
    ext j
    simp [j.isLt]
  rw [h]
  exact Finset.image_univ_equiv σ

theorem prefixImage_zero {n : ℕ} (σ : Equiv.Perm (Fin n)) :
    prefixImage σ 0 = ∅ := by
  unfold prefixImage
  simp

/-- For a fixed ordering, the marginal contributions telescope to
`v univ - v ∅`. -/
theorem marginal_sum {n : ℕ} (v : Finset (Fin n) → ℚ) (σ : Equiv.Perm (Fin n)) :
    ∑ i : Fin n, (v (insert i (before σ i)) - v (before σ i)) =
      v Finset.univ - v ∅ := by
  have hstep : ∀ i : Fin n,
      v (insert i (before σ i)) - v (before σ i) =
        (fun k : Fin n => v (prefixImage σ ((k : ℕ) + 1)) - v (prefixImage σ (k : ℕ)))
          (σ.symm i) := by
    intro i
    rw [insert_before, before_eq_prefixImage]
  rw [Finset.sum_congr rfl fun i _ => hstep i]
  rw [Equiv.sum_comp σ.symm
    (fun k : Fin n => v (prefixImage σ ((k : ℕ) + 1)) - v (prefixImage σ (k : ℕ)))]
  rw [Fin.sum_univ_eq_sum_range
    (fun k : ℕ => v (prefixImage σ (k + 1)) - v (prefixImage σ k)) n]
  rw [Finset.sum_range_sub (fun k : ℕ => v (prefixImage σ k)) n]
  rw [prefixImage_top, prefixImage_zero]

/-- Efficiency of Shapley attribution: the values sum to
`v univ - v ∅`. -/
theorem shapley_sum {n : ℕ} (v : Finset (Fin n) → ℚ) :
    ∑ i : Fin n, shapley v i = v Finset.univ - v ∅ := by
  unfold shapley
  rw [← Finset.sum_div]
  rw [Finset.sum_comm]
  rw [Finset.sum_congr rfl fun σ _ => marginal_sum v σ]
  rw [Finset.sum_const, Finset.card_univ, Fintype.card_perm, Fintype.card_fin,
    nsmul_eq_mul]
  exact mul_div_cancel_left₀ _ (Nat.cast_ne_zero.mpr (Nat.factorial_ne_zero n))

/-- The loaded XGBoost artifact as a tree ensemble: a base score and a
list of regression trees whose outputs add up on the margin scale. -/
structure TreeModel where
  base_score : ℚ
  trees : List Tree

/-- The raw margin (log-odds) output of the ensemble at a record. -/
def TreeModel.margin (m : TreeModel) (x : Fin 5 → ℚ) : ℚ :=
  m.base_score + (m.trees.map (Tree.eval x)).sum

/-- The cooperative game TreeExplainer attributes: the path-dependent
expected margin given that the features in `S` take the record's
values. -/
def TreeModel.game (m : TreeModel) (x : Fin 5 → ℚ) (S : Finset (Fin 5)) : ℚ :=
  m.base_score + (m.trees.map (Tree.condExp x S)).sum

/-- The baseline `explainer.expected_value` (web.py line 166): the baseline — the
ensemble's expected margin with no features fixed. -/
def TreeModel.expected_value (m : TreeModel) : ℚ :=
  m.game (fun _ => 0) ∅

/-- The attribution `explainer.shap_values(df_input)` (web.py lines 162-163): the
exact Shapley attribution of the ensemble's raw margin output for the
record. -/
def TreeModel.shapValues (m : TreeModel) (x : Fin 5 → ℚ) (i : Fin 5) : ℚ :=
  shapley (m.game x) i

theorem sum_condExp_univ (x : Fin 5 → ℚ) :
    ∀ l : List Tree,
      (l.map (Tree.condExp x Finset.univ)).sum = (l.map (Tree.eval x)).sum
  | [] => rfl
  | t :: ts => by
    simp only [List.map_cons, List.sum_cons, Tree.condExp_univ,
      sum_condExp_univ x ts]

theorem sum_condExp_empty (x y : Fin 5 → ℚ) :
    ∀ l : List Tree,
      (l.map (Tree.condExp x ∅)).sum = (l.map (Tree.condExp y ∅)).sum
  | [] => rfl
  | t :: ts => by
    simp only [List.map_cons, List.sum_cons, Tree.condExp_empty x y,
      sum_condExp_empty x y ts]

theorem TreeModel.game_univ (m : TreeModel) (x : Fin 5 → ℚ) :
    m.game x Finset.univ = m.margin x := by
  unfold TreeModel.game TreeModel.margin
  rw [sum_condExp_univ]

theorem TreeModel.game_empty (m : TreeModel) (x : Fin 5 → ℚ) :
    m.game x ∅ = m.expected_value := by
  unfold TreeModel.expected_value TreeModel.game
  rw [sum_condExp_empty x (fun _ => 0)]

/-- Local accuracy of the tree attribution: the per-feature
contributions plus the baseline give the record's raw margin output. -/
theorem shapValues_sum_add_base (m : TreeModel) (x : Fin 5 → ℚ) :
    (∑ i, m.shapValues x i) + m.expected_value = m.margin x := by
  unfold TreeModel.shapValues
  rw [shapley_sum, TreeModel.game_univ, TreeModel.game_empty]
  ring

/-- C9: for every tree-ensemble model and record, the sum of the five
per-feature attribution values plus the baseline expected value equals
the model's output for that record on the attribution (raw margin)
scale — exactly, in `ℚ`, so in particular within any floating-point
tolerance. -/
theorem attribution_sum_law (m : TreeModel) (x : Fin 5 → ℚ) :
    (∑ i, m.shapValues x i) + m.expected_value = m.margin x :=
  shapValues_sum_add_base m x

/-- A record as the feature vector of `input_data`
(web.py lines 111-117), in order BMI, FPG, TG, A1/B, D_dimer. -/
def ClinicalRecord.toVec (r : ClinicalRecord) : Fin 5 → ℚ
  | 0 => r.bmi
  | 1 => r.fpg
  | 2 => r.tg
  | 3 => r.a1_b
  | 4 => r.d_dimer

/-- A concrete single-tree fixture ensemble: one split on BMI at 30
with unit covers and leaf margins 2 and 4, zero base score. -/
def exTreeModel : TreeModel :=
  ⟨0, [Tree.node 0 30 1 1 (Tree.leaf 2) (Tree.leaf 4)]⟩

/-- C4 counterexample: at the concrete single-tree fixture and the
form's default record, the contributions plus the baseline total the
raw margin `2`, a value greater than `1`. A vector on the
link-transformed (probability) scale would decompose the displayed
probability and total a value in `[0, 1]`; the returned vector is
therefore on the raw log-odds scale, not the probability scale. -/
theorem shap_not_probability_scale :
    (∑ i, exTreeModel.shapValues defaultRecord.toVec i) + exTreeModel.expected_value
        = exTreeModel.margin defaultRecord.toVec ∧
    exTreeModel.margin defaultRecord.toVec = 2 ∧
    ¬exTreeModel.margin defaultRecord.toVec ≤ 1 := by
  have h2 : exTreeModel.margin defaultRecord.toVec = 2 := by
    norm_num [exTreeModel, TreeModel.margin, Tree.eval, ClinicalRecord.toVec,
      defaultRecord]
  exact ⟨shapValues_sum_add_base _ _, h2, by rw [h2]; norm_num⟩

/-- A concrete test-fixture artifact whose explanation step succeeds,
returning the constant attribution vector `0.2` with baseline `-1`. -/
def fixtureWithShap : Model where
  feature_names := canonicalNames
  predict_proba := fun _ => .ok (0.45, 0.55)
  shap_values := fun _ => .ok fun _ => 0.2
  expected_value := -1
  proba_nonneg := by
    intro r p h
    cases h
    norm_num
  proba_sum_one := by
    intro r p h
    cases h
    norm_num

/-- C4 amended: the explainer's contribution vector is on the raw
margin (log-odds) scale — for every tree-ensemble model and record it
sums with the baseline to the raw margin output, which need not lie in
`[0, 1]` — and the logit link transform enters only as the
`link="logit"` display parameter of the force plot, which receives the
returned values unchanged. -/
theorem shap_raw_scale_link_display_only (model : Model) (record : ClinicalRecord)
    (probs : ℚ × ℚ) (sv : Fin 5 → ℚ)
    (hp : model.predict_proba record = .ok probs)
    (hs : model.shap_values record = .ok sv) :
    Event.shapPlot model.expected_value sv record "logit"
        ∈ handleSubmission model record ∧
    ∀ (tm : TreeModel) (x : Fin 5 → ℚ),
      (∑ i, tm.shapValues x i) + tm.expected_value = tm.margin x := by
  constructor
  · unfold handleSubmission
    rw [hp, hs]
    simp
  · intro tm x
    exact shapValues_sum_add_base tm x

/-- Witness for the amended C4 at the concrete fixture. -/
theorem shap_raw_scale_link_display_only_witness :
    Event.shapPlot fixtureWithShap.expected_value (fun _ => (0.2 : ℚ)) defaultRecord "logit"
        ∈ handleSubmission fixtureWithShap defaultRecord ∧
    ∀ (tm : TreeModel) (x : Fin 5 → ℚ),
      (∑ i, tm.shapValues x i) + tm.expected_value = tm.margin x :=
  shap_raw_scale_link_display_only fixtureWithShap defaultRecord (0.45, 0.55)
    (fun _ => 0.2) rfl rfl

end GDPredictor
